import Mathlib

/-
Verification development for the telegram-reminder scheduling engine.

Shallow embedding of the repository's source files:
  utils.py      (parse_user_datetime, next_recurrence_time, escape_markdown_v2)
  database.py   (add_scheduled_message, get_message_by_id, deactivate_message,
                 update_scheduled_message, get_all_active_messages)
  scheduler.py  (schedule_all_jobs)
  bot.py        (publish_and_reschedule, select_delete_days)
  config.py     (TIMEZONE, modelled as its default value "UTC")

Conventions of the embedding:
  * Python datetimes are modelled at minute precision as a record of calendar
    fields.  The `aware` flag records whether the Python value carries a
    tzinfo (pytz.utc); Python raises TypeError when an aware and a naive
    datetime are compared with < or <=, which the embedding models by
    returning an error from the comparison functions.
  * TEXT timestamp columns hold isoformat strings; isoformat/fromisoformat
    form a bijection between those strings and datetime values (offset
    present iff the datetime is aware), so the embedding stores the datetime
    value itself in the row.
  * sqlite rows become a Lean structure; a table becomes a list of rows.
  * Python dicts used as drafts/patches become structures of Option fields
    (`none` = key absent); dict[key] on an absent key is a KeyError.
-/

namespace TelegramReminder

inductive PyErr where
  | typeError
  | keyError
  | valueError
deriving DecidableEq, Repr

/-- A Python datetime at minute precision.  `aware` is true when the value
carries a tzinfo (all aware values in this program are pytz.utc). -/
structure DateTime where
  year : Nat
  month : Nat
  day : Nat
  hour : Nat
  minute : Nat
  aware : Bool
deriving DecidableEq, Repr

/-- Chronological strict order on the calendar fields (the order Python uses
on two datetimes of equal awareness). -/
def lexLt (a b : DateTime) : Bool :=
  if a.year < b.year then true
  else if b.year < a.year then false
  else if a.month < b.month then true
  else if b.month < a.month then false
  else if a.day < b.day then true
  else if b.day < a.day then false
  else if a.hour < b.hour then true
  else if b.hour < a.hour then false
  else a.minute < b.minute

def lexLe (a b : DateTime) : Bool := !(lexLt b a)

/-- Python `a <= b` on datetimes: TypeError when exactly one side is aware. -/
def dtLe (a b : DateTime) : Except PyErr Bool :=
  if a.aware = b.aware then .ok (lexLe a b) else .error .typeError

/-- Python `a > b` on datetimes: TypeError when exactly one side is aware. -/
def dtGt (a b : DateTime) : Except PyErr Bool :=
  if a.aware = b.aware then .ok (lexLt b a) else .error .typeError

def isLeap (y : Nat) : Bool :=
  y % 4 = 0 && (y % 100 ≠ 0 || y % 400 = 0)

def daysInMonth (y m : Nat) : Nat :=
  if m = 2 then (if isLeap y then 29 else 28)
  else if m = 4 || m = 6 || m = 9 || m = 11 then 30
  else 31

/-- Advance a datetime by one calendar day, as `d + timedelta(days=1)` does
on a (naive or aware-UTC) Python datetime. -/
def nextDay (d : DateTime) : DateTime :=
  if d.day < daysInMonth d.year d.month then { d with day := d.day + 1 }
  else if d.month < 12 then { d with month := d.month + 1, day := 1 }
  else { d with year := d.year + 1, month := 1, day := 1 }

/-- `d + timedelta(days=n)`. -/
def addDays (d : DateTime) : Nat → DateTime
  | 0 => d
  | n + 1 => addDays (nextDay d) n

/-- utils.py `next_recurrence_time(original, recurrence, last)`.

The source assigns `now = datetime.datetime.utcnow()` and never reads it; in
the embedding the clock read becomes the explicit first argument, which the
body likewise never reads.  The monthly branch constructs its result with
`tzinfo=utc`, hence `aware := true`; the daily/weekly branches keep the
awareness of `last` (timedelta addition preserves tzinfo).  The embedding
uses unbounded years, so the OverflowError possible near datetime.MAXYEAR is
out of the modelled range. -/
def next_recurrence_time (now original : DateTime) (recurrence : String)
    (last : DateTime) : Option DateTime :=
  if recurrence = "once" then none
  else
    if recurrence = "daily" then some (addDays last 1)
    else if recurrence = "weekly" then some (addDays last 7)
    else if recurrence = "monthly" then
      some { year := last.year + (if last.month = 12 then 1 else 0),
             month := last.month % 12 + 1,
             day := min last.day 28,
             hour := last.hour,
             minute := last.minute,
             aware := true }
    else none

/-- A row of the sqlite table `scheduled_messages` (database.py init_db). -/
structure Task where
  id : Nat
  chat_id : Int
  message_text : Option String
  photo_file_id : Option String
  document_file_id : Option String
  caption : Option String
  publish_at : DateTime
  original_publish_at : DateTime
  recurrence : String
  pin : Bool
  notify : Bool
  delete_after_days : Option Nat
  active : Bool
  created_at : DateTime
  last_published_at : Option DateTime
  max_end_date : Option DateTime
deriving DecidableEq, Repr

/-- The conversational session dict that bot.py hands to
`add_scheduled_message`: `none` means the key is absent. -/
structure SessionData where
  chat_id : Option Int := none
  text : Option String := none
  photo_file_id : Option String := none
  document_file_id : Option String := none
  caption : Option String := none
  publish_at : Option DateTime := none
  recurrence : Option String := none
  pin : Option Bool := none
  notify : Option Bool := none
  delete_after_days : Option Nat := none
deriving DecidableEq, Repr

/-- The id sqlite AUTOINCREMENT assigns to the next inserted row: one more
than the largest id ever used (modelled over the live rows). -/
def freshId (db : List Task) : Nat :=
  (db.foldr (fun t m => Nat.max t.id m) 0) + 1

/-- database.py `add_scheduled_message(data)`.

`nowLocal` is `datetime.now(TIMEZONE).replace(tzinfo=None)` (naive local wall
clock) used for `max_end_date`; `nowSql` is sqlite's `datetime('now')` used
for `created_at`.  `data['publish_at']`, `data['chat_id']` and
`data['recurrence']` are mandatory dict lookups (KeyError when absent, raised
before the INSERT executes, so nothing is persisted); the remaining fields
are `data.get(...)` with the source's defaults.  No other validation is
performed. -/
def add_scheduled_message (nowLocal nowSql : DateTime) (db : List Task)
    (data : SessionData) : Except PyErr (Nat × List Task) :=
  match data.publish_at, data.chat_id, data.recurrence with
  | some pub, some chat, some rec =>
      .ok (freshId db, db ++
        [{ id := freshId db,
           chat_id := chat,
           message_text := data.text,
           photo_file_id := data.photo_file_id,
           document_file_id := data.document_file_id,
           caption := data.caption,
           publish_at := pub,
           original_publish_at := pub,
           recurrence := rec,
           pin := data.pin.getD false,
           notify := data.notify.getD true,
           delete_after_days := data.delete_after_days,
           active := true,
           created_at := nowSql,
           last_published_at := none,
           max_end_date := some (addDays nowLocal 365) }])
  | _, _, _ => .error .keyError

/-- database.py `get_message_by_id`. -/
def get_message_by_id (db : List Task) (msgId : Nat) : Option Task :=
  db.find? (fun t => t.id == msgId)

/-- database.py `get_all_active_messages` (the `ORDER BY publish_at ASC` on
the TEXT column is dropped: every claim here is order-independent). -/
def get_all_active_messages (db : List Task) : List Task :=
  db.filter (fun t => t.active)

/-- database.py `deactivate_message`: sets `active = 0`, returns whether a
row was affected. -/
def deactivate_message (msgId : Nat) (db : List Task) : Bool × List Task :=
  (db.any (fun t => t.id == msgId),
   db.map (fun t => if t.id == msgId then { t with active := false } else t))

/-- The patch dict accepted by database.py `update_scheduled_message`.  The
outer Option is key presence; for nullable columns the inner Option is the
stored value (a present key may carry NULL). -/
structure UpdateData where
  chat_id : Option Int := none
  message_text : Option (Option String) := none
  photo_file_id : Option (Option String) := none
  document_file_id : Option (Option String) := none
  caption : Option (Option String) := none
  publish_at : Option DateTime := none
  recurrence : Option String := none
  pin : Option Bool := none
  notify : Option Bool := none
  delete_after_days : Option (Option Nat) := none
deriving DecidableEq, Repr

/-- True when at least one recognized key is present (the source's `fields`
list is non-empty). -/
def updHasFields (d : UpdateData) : Bool :=
  d.chat_id.isSome || d.message_text.isSome || d.photo_file_id.isSome ||
  d.document_file_id.isSome || d.caption.isSome || d.publish_at.isSome ||
  d.recurrence.isSome || d.pin.isSome || d.notify.isSome ||
  d.delete_after_days.isSome

/-- The SET clause applied to the addressed row: each present key overwrites
its column, every other column keeps its value. -/
def applyUpdate (d : UpdateData) (t : Task) : Task :=
  { t with
    chat_id := d.chat_id.getD t.chat_id,
    message_text := d.message_text.getD t.message_text,
    photo_file_id := d.photo_file_id.getD t.photo_file_id,
    document_file_id := d.document_file_id.getD t.document_file_id,
    caption := d.caption.getD t.caption,
    publish_at := d.publish_at.getD t.publish_at,
    recurrence := d.recurrence.getD t.recurrence,
    pin := d.pin.getD t.pin,
    notify := d.notify.getD t.notify,
    delete_after_days := d.delete_after_days.getD t.delete_after_days }

/-- database.py `update_scheduled_message(msg_id, data)`: returns False and
changes nothing when no recognized key is present; otherwise updates the
addressed row and returns whether a row was affected (`cursor.rowcount`). -/
def update_scheduled_message (msgId : Nat) (d : UpdateData) (db : List Task) :
    Bool × List Task :=
  if updHasFields d = false then (false, db)
  else
    (db.any (fun t => t.id == msgId),
     db.map (fun t => if t.id == msgId then applyUpdate d t else t))

/-- Digit value of a character ('0'..'9' ↦ 0..9). -/
def c2n (c : Char) : Nat := c.toNat - 48

/-- Two-digit zero-padded decimal field, used by strftime for
%d, %m, %H and %M.  Faithful for n < 100. -/
def fmt2 (n : Nat) : List Char :=
  [Nat.digitChar (n / 10 % 10), Nat.digitChar (n % 10)]

/-- Four-digit decimal year, strftime %Y.  Faithful for 1000 ≤ n ≤ 9999
(the only years the fixed DD.MM.YYYY format can round-trip). -/
def fmt4 (n : Nat) : List Char :=
  [Nat.digitChar (n / 1000 % 10), Nat.digitChar (n / 100 % 10),
   Nat.digitChar (n / 10 % 10), Nat.digitChar (n % 10)]

/-- bot.py line 477: `strftime("%d.%m.%Y %H:%M")` applied to an instant
viewed in the configured reference timezone (config.py TIMEZONE, default
"UTC", under which the calendar fields of a UTC instant are unchanged). -/
def format_user_datetime (dt : DateTime) : String :=
  String.mk (fmt2 dt.day ++ ('.' :: (fmt2 dt.month ++ ('.' :: (fmt4 dt.year ++
    (' ' :: (fmt2 dt.hour ++ (':' :: fmt2 dt.minute))))))))

def isWs (c : Char) : Bool := c.isWhitespace

/-- Python `str.strip()`: drop whitespace from both ends. -/
def stripChars (l : List Char) : List Char :=
  ((l.dropWhile isWs).reverse.dropWhile isWs).reverse

/-- Consume exactly two digits, returning their value. -/
def read2 : List Char → Option (Nat × List Char)
  | a :: b :: rest =>
      if a.isDigit && b.isDigit then some (10 * c2n a + c2n b, rest)
      else none
  | _ => none

/-- Consume exactly four digits, returning their value. -/
def read4 : List Char → Option (Nat × List Char)
  | a :: b :: c :: d :: rest =>
      if a.isDigit && b.isDigit && c.isDigit && d.isDigit then
        some (1000 * c2n a + 100 * c2n b + 10 * c2n c + c2n d, rest)
      else none
  | _ => none

/-- Consume one expected literal character. -/
def expect (c : Char) : List Char → Option (List Char)
  | a :: rest => if a = c then some rest else none
  | _ => none

/-- The shape check of utils.py `parse_user_datetime` — the regex
`^\d\d\.\d\d\.\d\d\d\d \d\d:\d\d$` — fused with strptime's field
extraction: recognizes exactly the strings the regex accepts and returns
the numeric fields. -/
def scanFields (l : List Char) : Option (Nat × Nat × Nat × Nat × Nat) :=
  (read2 l).bind fun p1 =>
  (expect '.' p1.2).bind fun l1 =>
  (read2 l1).bind fun p2 =>
  (expect '.' p2.2).bind fun l2 =>
  (read4 l2).bind fun p3 =>
  (expect ' ' p3.2).bind fun l3 =>
  (read2 l3).bind fun p4 =>
  (expect ':' p4.2).bind fun l4 =>
  (read2 l4).bind fun p5 =>
  if p5.2 = [] then some (p1.1, p2.1, p3.1, p4.1, p5.1) else none

/-- utils.py `parse_user_datetime(input_str)`: strip, check the fixed
format (regex), parse with strptime — which also validates the field
ranges, raising ValueError for e.g. day 31 in a short month or year 0000 —
then localize against the configured reference timezone (config.py
TIMEZONE, default "UTC": `localize` only stamps the tzinfo) and convert to
UTC (`astimezone(utc)`, the identity on a UTC-aware value).  Returns the
pair (naive local time, aware UTC time). -/
def parse_user_datetime (s : String) :
    Except PyErr (DateTime × DateTime) :=
  match scanFields (stripChars s.toList) with
  | none => .error .valueError
  | some (day, month, year, hour, minute) =>
    if 1 ≤ year ∧ 1 ≤ month ∧ month ≤ 12 ∧ 1 ≤ day ∧
        day ≤ daysInMonth year month ∧ hour ≤ 23 ∧ minute ≤ 59 then
      .ok (⟨year, month, day, hour, minute, false⟩,
           ⟨year, month, day, hour, minute, true⟩)
    else .error .valueError

/-- Python `text.replace(old, new)` for a one-character `old`. -/
def replaceChar (c : Char) (rep : List Char) : List Char → List Char
  | [] => []
  | a :: l =>
      if a = c then rep ++ replaceChar c rep l else a :: replaceChar c rep l

/-- The special characters escaped by utils.py `escape_markdown_v2`. -/
def mdSpecials : List Char := "_*[]()~`>#+-=|\x7b\x7d.!".toList

/-- utils.py `escape_markdown_v2`: empty (falsy) text returns "", otherwise
backslashes are doubled first and then each special character is prefixed
with a backslash. -/
def escape_markdown_v2 (text : String) : String :=
  if text = "" then ""
  else
    String.mk (mdSpecials.foldl (fun acc c => replaceChar c ['\\', c] acc)
      (replaceChar '\\' ['\\', '\\'] text.toList))

/-- Python truthiness of an Optional[str]: None and "" are falsy. -/
def truthyS : Option String → Bool
  | some s => !(s == "")
  | none => false

/-- bot.py: `content = task['message_text'] or task['caption'] or ""`. -/
def contentOf (t : Task) : String :=
  if truthyS t.message_text then t.message_text.getD ""
  else if truthyS t.caption then t.caption.getD ""
  else ""

/-- One call of the delivery callback (bot.send_photo / send_document /
send_message): destination, which send method, the file id, the escaped
caption/text handed to the platform, and `disable_notification`. -/
structure Delivery where
  chat_id : Int
  kind : String
  file_id : Option String
  text : Option String
  disable_notification : Bool
deriving DecidableEq, Repr

/-- A row of the `published_messages` archive table. -/
structure ArchiveRecord where
  scheduled_id : Nat
  chat_id : Int
  message_id : Int
  content : String
  photo_file_id : Option String
  document_file_id : Option String
  status : String
deriving DecidableEq, Repr

/-- One job submitted to bot.py `schedule_message_deletion`. -/
structure DeletionJob where
  chat_id : Int
  message_id : Int
  run_date : DateTime
deriving DecidableEq, Repr

/-- The observable result of one `publish_and_reschedule` call: the task
table afterwards, the archive afterwards, the deliveries performed and the
deletion jobs submitted. -/
structure PublishOutcome where
  db : List Task
  archive : List ArchiveRecord
  deliveries : List Delivery
  deletionJobs : List DeletionJob
deriving DecidableEq, Repr

/-- bot.py `publish_and_reschedule(msg_id, application)`.

`now` is `datetime.datetime.utcnow()` (naive); `messageId` is the message id
the platform returns for the successful send (the delivery callback is
external and assumed to succeed; its failure path and the best-effort pin
call touch no modelled state).  Control flow from the source: re-fetch the
row; when missing or inactive return silently with nothing changed.
Otherwise send (photo / document / plain text chosen by truthiness of the
file-id columns), archive the publication, submit a deletion job when
`delete_after_days` is truthy, and for a recurring task compute
`next_recurrence_time`; when the computed time compares greater than
`max_end_date` the row is deactivated, when it compares lower the row's
`publish_at`/`last_published_at` are updated.  The comparison of an aware
`next_time` with a naive `max_end_date` (and `fromisoformat(None)` when
`max_end_date` is NULL) raises TypeError, which the function's blanket
`except` swallows after the send and archive already happened — the row is
then left unchanged. -/
def publish_and_reschedule (now : DateTime) (messageId : Int) (msgId : Nat)
    (db : List Task) (archive : List ArchiveRecord) : PublishOutcome :=
  match db.find? (fun t => t.id == msgId) with
  | none => ⟨db, archive, [], []⟩
  | some task =>
    if task.active = false then ⟨db, archive, [], []⟩
    else
      let content := contentOf task
      let deliv : Delivery :=
        if truthyS task.photo_file_id then
          { chat_id := task.chat_id, kind := "photo",
            file_id := task.photo_file_id,
            text := if content == "" then none
                    else some (escape_markdown_v2 content),
            disable_notification := !task.notify }
        else if truthyS task.document_file_id then
          { chat_id := task.chat_id, kind := "document",
            file_id := task.document_file_id,
            text := if content == "" then none
                    else some (escape_markdown_v2 content),
            disable_notification := !task.notify }
        else
          { chat_id := task.chat_id, kind := "message", file_id := none,
            text := some (escape_markdown_v2 content),
            disable_notification := !task.notify }
      let archive' := archive ++
        [{ scheduled_id := task.id, chat_id := task.chat_id,
           message_id := messageId, content := content,
           photo_file_id := task.photo_file_id,
           document_file_id := task.document_file_id,
           status := "published" }]
      let jobs : List DeletionJob :=
        match task.delete_after_days with
        | some d =>
            if d ≠ 0 then [⟨task.chat_id, messageId, addDays now d⟩] else []
        | none => []
      let db' :=
        if task.recurrence ≠ "once" then
          match next_recurrence_time now task.original_publish_at
              task.recurrence task.publish_at with
          | none => db
          | some nt =>
            match task.max_end_date with
            | none => db
            | some me =>
              match dtGt nt me with
              | .error _ => db
              | .ok true => (deactivate_message msgId db).2
              | .ok false =>
                  db.map (fun t => if t.id == msgId then
                    { t with publish_at := nt, last_published_at := some now }
                  else t)
        else db
      ⟨db', archive', [deliv], jobs⟩

/-- An effect of scheduler.py `schedule_all_jobs` on one row: either
`application.create_task(publish_and_reschedule(...))` right away, or
`scheduler.add_job(..., DateTrigger(run_date=...))`. -/
inductive SchedAction where
  | publishNow (msgId : Nat)
  | addJob (msgId : Nat) (runDate : DateTime)
deriving DecidableEq, Repr

/-- The loop body of scheduler.py `schedule_all_jobs`.  `now` is
`datetime.datetime.now(utc).replace(tzinfo=None)` (naive; the source reads
the clock once per row, modelled as one instant).  The comparison
`publish_at <= now` raises TypeError whenever the stored timestamp carries
an offset (as every timestamp written by `parse_user_datetime` does); the
exception propagates, aborting the loop after the actions already taken.
The enqueued run date is `publish_at.replace(tzinfo=utc)`; the
misfire_grace_time/replace_existing job options touch no modelled state. -/
def schedule_jobs_go (now : DateTime) :
    List Task → List SchedAction → List SchedAction × Option PyErr
  | [], acc => (acc.reverse, none)
  | msg :: rest, acc =>
    if msg.active = false then schedule_jobs_go now rest acc
    else
      match dtLe msg.publish_at now with
      | .error e => (acc.reverse, some e)
      | .ok true => schedule_jobs_go now rest (.publishNow msg.id :: acc)
      | .ok false =>
          schedule_jobs_go now rest
            (.addJob msg.id { msg.publish_at with aware := true } :: acc)

/-- scheduler.py `schedule_all_jobs(application)`: iterates the active rows
and fires-or-enqueues each one; returns the actions performed and the
exception that aborted the loop, if any. -/
def schedule_all_jobs (now : DateTime) (db : List Task) :
    List SchedAction × Option PyErr :=
  schedule_jobs_go now (get_all_active_messages db) []

/-- The process state the submission handler can reach: the task table and
the global AsyncIOScheduler's job queue (scheduler.py `scheduler`). -/
structure BotState where
  db : List Task
  schedulerJobs : List SchedAction
deriving DecidableEq, Repr

/-- bot.py `select_delete_days` (the final step of the creation
conversation), success path: store the parsed day count in the session
(`delete_0` means None), persist via `add_scheduled_message`, confirm to the
admin; on any exception report the error with the table unchanged.  The
handler never references the scheduler.  The cancel branch and the
`user_sessions` bookkeeping touch no modelled state. -/
def select_delete_days (nowLocal nowSql : DateTime) (daysChoice : Nat)
    (session : SessionData) (st : BotState) : BotState × Bool :=
  match add_scheduled_message nowLocal nowSql st.db
      { session with delete_after_days :=
          if daysChoice = 0 then none else some daysChoice } with
  | .ok (_, db') => ({ db := db', schedulerJobs := st.schedulerJobs }, true)
  | .error _ => (st, false)

/-- Every live row's id is below the next AUTOINCREMENT id. -/
theorem id_lt_freshId (db : List Task) : ∀ t ∈ db, t.id < freshId db := by
  induction db with
  | nil => intro t ht; cases ht
  | cons a l ih =>
    intro t ht
    rcases List.mem_cons.mp ht with h | h
    · subst h
      have : t.id ≤ Nat.max t.id (l.foldr (fun t m => Nat.max t.id m) 0) :=
        Nat.le_max_left _ _
      simpa [freshId] using Nat.lt_succ_of_le this
    · have hlt := ih t h
      have : (l.foldr (fun t m => Nat.max t.id m) 0) ≤
          Nat.max a.id (l.foldr (fun t m => Nat.max t.id m) 0) :=
        Nat.le_max_right _ _
      simp only [freshId, List.foldr_cons] at hlt ⊢
      omega

/-- Claim C4: for every last fire time with a valid month, the monthly step
returns the instant one calendar month later (December rolls over to January
of the next year) on day `min d 28` with the same hour and minute. -/
theorem monthly_step_one_month_later (now original last : DateTime)
    (h1 : 1 ≤ last.month) (h2 : last.month ≤ 12) :
    next_recurrence_time now original "monthly" last =
      some { year := if last.month = 12 then last.year + 1 else last.year,
             month := if last.month = 12 then 1 else last.month + 1,
             day := min last.day 28,
             hour := last.hour,
             minute := last.minute,
             aware := true } := by
  have hbase : next_recurrence_time now original "monthly" last =
      some { year := last.year + (if last.month = 12 then 1 else 0),
             month := last.month % 12 + 1,
             day := min last.day 28,
             hour := last.hour,
             minute := last.minute,
             aware := true } := rfl
  rw [hbase]
  by_cases hm : last.month = 12
  · simp [hm]
  · have hlt : last.month < 12 := lt_of_le_of_ne h2 hm
    simp [hm, Nat.mod_eq_of_lt hlt]

/-- Witness for C4, the example from the spec: the monthly step from
2024-01-30T10:00Z lands on 2024-02-28T10:00Z. -/
theorem monthly_step_one_month_later_witness :
    next_recurrence_time ⟨2024, 1, 30, 10, 0, false⟩ ⟨2024, 1, 30, 10, 0, true⟩
      "monthly" ⟨2024, 1, 30, 10, 0, true⟩ = some ⟨2024, 2, 28, 10, 0, true⟩ :=
  (monthly_step_one_month_later ⟨2024, 1, 30, 10, 0, false⟩
    ⟨2024, 1, 30, 10, 0, true⟩ ⟨2024, 1, 30, 10, 0, true⟩
    (by decide) (by decide)).trans (by decide)

/-- Claim C8: `next_recurrence_time` is deterministic — its result does not
depend on the wall-clock argument (the source computes `utcnow()` and never
uses it) — and recurrence `'once'` (the code's encoding of the spec's `none`
recurrence) always yields no further occurrence. -/
theorem next_recurrence_time_pure :
    (∀ now₁ now₂ original recurrence last,
      next_recurrence_time now₁ original recurrence last =
        next_recurrence_time now₂ original recurrence last) ∧
    (∀ now original last,
      next_recurrence_time now original "once" last = none) :=
  ⟨fun _ _ _ _ _ => rfl, fun _ _ _ => rfl⟩

/-- The freshly inserted row is found by a lookup of its id. -/
theorem get_message_by_id_append_fresh (db : List Task) (t : Task)
    (ht : t.id = freshId db) :
    get_message_by_id (db ++ [t]) (freshId db) = some t := by
  unfold get_message_by_id
  rw [List.find?_append]
  have hnone : db.find? (fun x => x.id == freshId db) = none := by
    apply List.find?_eq_none.mpr
    intro x hx
    have := id_lt_freshId db x hx
    simp [Nat.ne_of_lt this]
  simp [hnone, List.find?, ht]

/-- Claim C5: creating a task persists `publish_at = original_publish_at`
(the submitted time) and `active = true`, so a get immediately after the
submit returns a task with `first_fire_at = next_fire_at` and
`active = true`. -/
theorem submit_then_get (nowLocal nowSql : DateTime) (db : List Task)
    (draft : SessionData) (c : Int) (pub : DateTime) (rec : String)
    (hc : draft.chat_id = some c) (hp : draft.publish_at = some pub)
    (hr : draft.recurrence = some rec) :
    ∃ i db' t, add_scheduled_message nowLocal nowSql db draft = .ok (i, db') ∧
      get_message_by_id db' i = some t ∧
      t.publish_at = pub ∧ t.original_publish_at = pub ∧ t.active = true := by
  have hadd : add_scheduled_message nowLocal nowSql db draft =
      .ok (freshId db, db ++
        [{ id := freshId db, chat_id := c, message_text := draft.text,
           photo_file_id := draft.photo_file_id,
           document_file_id := draft.document_file_id,
           caption := draft.caption, publish_at := pub,
           original_publish_at := pub, recurrence := rec,
           pin := draft.pin.getD false, notify := draft.notify.getD true,
           delete_after_days := draft.delete_after_days, active := true,
           created_at := nowSql, last_published_at := none,
           max_end_date := some (addDays nowLocal 365) }]) := by
    simp only [add_scheduled_message, hp, hc, hr]
  exact ⟨freshId db, _, _, hadd, get_message_by_id_append_fresh db _ rfl,
    rfl, rfl, rfl⟩

def c5draft : SessionData :=
  { chat_id := some 555, text := some "hi",
    publish_at := some ⟨2025, 3, 1, 10, 0, true⟩, recurrence := some "once" }

/-- Witness for C5 at a concrete draft. -/
theorem submit_then_get_witness :
    ∃ i db' t, add_scheduled_message ⟨2025, 1, 1, 12, 0, false⟩
        ⟨2025, 1, 1, 12, 0, false⟩ [] c5draft = .ok (i, db') ∧
      get_message_by_id db' i = some t ∧
      t.publish_at = ⟨2025, 3, 1, 10, 0, true⟩ ∧
      t.original_publish_at = ⟨2025, 3, 1, 10, 0, true⟩ ∧ t.active = true :=
  submit_then_get ⟨2025, 1, 1, 12, 0, false⟩ ⟨2025, 1, 1, 12, 0, false⟩ []
    c5draft 555 ⟨2025, 3, 1, 10, 0, true⟩ "once" rfl rfl rfl

/-- Claim C3 (amended): `add_scheduled_message` validates nothing beyond the
presence of the `chat_id`, `publish_at` and `recurrence` keys: a draft
missing one of those fails with a KeyError raised before the INSERT (nothing
persisted), while any draft with those keys — even one with no payload at
all — is persisted and its new id returned. -/
theorem create_no_payload_validation (nowLocal nowSql : DateTime)
    (db : List Task) (draft : SessionData) :
    (draft.chat_id = none ∨ draft.publish_at = none ∨ draft.recurrence = none →
      add_scheduled_message nowLocal nowSql db draft = .error .keyError) ∧
    (∀ c pub rec, draft.chat_id = some c → draft.publish_at = some pub →
      draft.recurrence = some rec →
      ∃ t, add_scheduled_message nowLocal nowSql db draft =
          .ok (freshId db, db ++ [t]) ∧
        t.message_text = draft.text ∧ t.photo_file_id = draft.photo_file_id ∧
        t.document_file_id = draft.document_file_id ∧
        t.publish_at = pub ∧ t.active = true) := by
  constructor
  · intro h
    unfold add_scheduled_message
    rcases hpub : draft.publish_at with _ | pub
    · rfl
    rcases hcid : draft.chat_id with _ | c
    · rfl
    rcases hrec : draft.recurrence with _ | rec
    · rfl
    rcases h with h | h | h <;> simp_all
  · intro c pub rec hc hp hr
    refine ⟨{ id := freshId db, chat_id := c, message_text := draft.text,
              photo_file_id := draft.photo_file_id,
              document_file_id := draft.document_file_id,
              caption := draft.caption, publish_at := pub,
              original_publish_at := pub, recurrence := rec,
              pin := draft.pin.getD false, notify := draft.notify.getD true,
              delete_after_days := draft.delete_after_days, active := true,
              created_at := nowSql, last_published_at := none,
              max_end_date := some (addDays nowLocal 365) },
            ?_, rfl, rfl, rfl, rfl, rfl⟩
    simp only [add_scheduled_message, hp, hc, hr]

def c3draft : SessionData :=
  { chat_id := some 555, publish_at := some ⟨2025, 2, 1, 10, 0, true⟩,
    recurrence := some "once" }

def c3missing : SessionData :=
  { publish_at := some ⟨2025, 2, 1, 10, 0, true⟩, recurrence := some "once" }

/-- Counterexample for C3 as stated: a draft whose payload is entirely
missing (no text, no photo, no document) is not rejected — the row is
persisted with NULL payload and the new id is returned. -/
theorem create_accepts_missing_payload :
    add_scheduled_message ⟨2025, 1, 1, 12, 0, false⟩ ⟨2025, 1, 1, 12, 0, false⟩
        [] c3draft =
      .ok (1,
        [{ id := 1, chat_id := 555, message_text := none,
           photo_file_id := none, document_file_id := none, caption := none,
           publish_at := ⟨2025, 2, 1, 10, 0, true⟩,
           original_publish_at := ⟨2025, 2, 1, 10, 0, true⟩,
           recurrence := "once", pin := false, notify := true,
           delete_after_days := none, active := true,
           created_at := ⟨2025, 1, 1, 12, 0, false⟩,
           last_published_at := none,
           max_end_date := some (addDays ⟨2025, 1, 1, 12, 0, false⟩ 365) }])
      := rfl

/-- Witness for the amended C3: the missing-key draft fails with KeyError,
the payload-free draft is persisted. -/
theorem create_no_payload_validation_witness :
    (add_scheduled_message ⟨2025, 1, 1, 12, 0, false⟩ ⟨2025, 1, 1, 12, 0, false⟩
        [] c3missing = .error .keyError) ∧
    (∃ t, add_scheduled_message ⟨2025, 1, 1, 12, 0, false⟩
          ⟨2025, 1, 1, 12, 0, false⟩ [] c3draft = .ok (freshId [], [] ++ [t]) ∧
      t.message_text = c3draft.text ∧ t.photo_file_id = c3draft.photo_file_id ∧
      t.document_file_id = c3draft.document_file_id ∧
      t.publish_at = ⟨2025, 2, 1, 10, 0, true⟩ ∧ t.active = true) :=
  ⟨(create_no_payload_validation ⟨2025, 1, 1, 12, 0, false⟩
      ⟨2025, 1, 1, 12, 0, false⟩ [] c3missing).1 (Or.inl rfl),
   (create_no_payload_validation ⟨2025, 1, 1, 12, 0, false⟩
      ⟨2025, 1, 1, 12, 0, false⟩ [] c3draft).2 555 ⟨2025, 2, 1, 10, 0, true⟩
      "once" rfl rfl rfl⟩

/-- The fields of a row that `update_scheduled_message` must never touch,
together with the row id. -/
def taskFrame (t : Task) :
    Nat × Bool × DateTime × Option DateTime × DateTime × Option DateTime :=
  (t.id, t.active, t.original_publish_at, t.max_end_date, t.created_at,
   t.last_published_at)

/-- Claim C10: `update_scheduled_message` modifies at most the ten
recognized columns of the addressed row — `id`, `active`,
`original_publish_at`, `max_end_date`, `created_at` and `last_published_at`
are preserved for every row, rows with a different id are untouched, and a
patch with no recognized key returns False and leaves the table unchanged. -/
theorem update_frame (msgId : Nat) (d : UpdateData) (db : List Task) :
    ((update_scheduled_message msgId d db).2.map taskFrame =
        db.map taskFrame) ∧
    (∀ t ∈ db, (t.id == msgId) = false →
        t ∈ (update_scheduled_message msgId d db).2) ∧
    (updHasFields d = false → update_scheduled_message msgId d db =
        (false, db)) := by
  refine ⟨?_, ?_, ?_⟩
  · unfold update_scheduled_message
    split
    · rfl
    · rw [List.map_map]
      apply List.map_congr_left
      intro t ht
      by_cases h : t.id = msgId <;> simp [h, applyUpdate, taskFrame]
  · intro t ht hne
    unfold update_scheduled_message
    split
    · exact ht
    · exact List.mem_map.mpr ⟨t, ht, by simp [hne]⟩
  · intro h
    unfold update_scheduled_message
    simp [h]

def c10task : Task :=
  { id := 1, chat_id := 7, message_text := some "m", photo_file_id := none,
    document_file_id := none, caption := none,
    publish_at := ⟨2025, 1, 1, 0, 0, true⟩,
    original_publish_at := ⟨2025, 1, 1, 0, 0, true⟩, recurrence := "daily",
    pin := false, notify := true, delete_after_days := none, active := true,
    created_at := ⟨2024, 1, 1, 0, 0, false⟩, last_published_at := none,
    max_end_date := none }

/-- Witness for C10: an empty patch on an existing row returns False and
changes nothing. -/
theorem update_frame_witness :
    update_scheduled_message 1 {} [c10task] = (false, [c10task]) :=
  (update_frame 1 {} [c10task]).2.2 rfl

/-- Claim C7: when the firing path's re-fetch finds the task missing or
already deactivated, nothing is delivered, nothing is archived, no deletion
job is submitted and the task table is unchanged (silent discard). -/
theorem cancelled_task_not_delivered (now : DateTime) (messageId : Int)
    (msgId : Nat) (db : List Task) (archive : List ArchiveRecord)
    (h : (Option.map Task.active
        (db.find? (fun t => t.id == msgId))).getD false = false) :
    publish_and_reschedule now messageId msgId db archive =
      ⟨db, archive, [], []⟩ := by
  cases hf : db.find? (fun t => t.id == msgId) with
  | none =>
      unfold publish_and_reschedule
      rw [hf]
  | some task =>
      have ha : task.active = false := by rw [hf] at h; simpa using h
      unfold publish_and_reschedule
      rw [hf]
      simp [ha]

def c7task : Task :=
  { id := 3, chat_id := 555, message_text := some "bye", photo_file_id := none,
    document_file_id := none, caption := none,
    publish_at := ⟨2025, 1, 1, 0, 0, false⟩,
    original_publish_at := ⟨2025, 1, 1, 0, 0, false⟩, recurrence := "once",
    pin := false, notify := true, delete_after_days := none, active := false,
    created_at := ⟨2024, 1, 1, 0, 0, false⟩, last_published_at := none,
    max_end_date := some ⟨2025, 12, 1, 0, 0, false⟩ }

/-- Witness for C7: firing a deactivated row changes nothing. -/
theorem cancelled_task_not_delivered_witness :
    publish_and_reschedule ⟨2025, 1, 2, 0, 0, false⟩ 900 3 [c7task] [] =
      ⟨[c7task], [], [], []⟩ :=
  cancelled_task_not_delivered ⟨2025, 1, 2, 0, 0, false⟩ 900 3 [c7task] []
    (by decide)

def c1task : Task :=
  { id := 1, chat_id := 555, message_text := some "hello",
    photo_file_id := none, document_file_id := none, caption := none,
    publish_at := ⟨2024, 1, 30, 10, 0, false⟩,
    original_publish_at := ⟨2024, 1, 30, 10, 0, false⟩,
    recurrence := "monthly", pin := false, notify := true,
    delete_after_days := none, active := true,
    created_at := ⟨2024, 1, 1, 0, 0, false⟩, last_published_at := none,
    max_end_date := some ⟨2024, 2, 15, 0, 0, false⟩ }

/-- Claim C1, evaluated at the failing input: for an active monthly task the
computed next occurrence (2024-02-28T10:00, tz-aware) exceeds
`max_end_date` (2024-02-15, naive) as an instant, yet the horizon comparison
raises TypeError (aware vs naive), the blanket `except` swallows it, and the
row is left active with its stale `publish_at` — neither deactivated nor
advanced, contradicting the claimed invariant. -/
theorem horizon_check_crashes_on_monthly :
    next_recurrence_time ⟨2024, 1, 30, 10, 5, false⟩ c1task.original_publish_at
        "monthly" c1task.publish_at = some ⟨2024, 2, 28, 10, 0, true⟩ ∧
    lexLt ⟨2024, 2, 15, 0, 0, false⟩ ⟨2024, 2, 28, 10, 0, true⟩ = true ∧
    dtGt ⟨2024, 2, 28, 10, 0, true⟩ ⟨2024, 2, 15, 0, 0, false⟩ =
      .error .typeError ∧
    (publish_and_reschedule ⟨2024, 1, 30, 10, 5, false⟩ 777 1 [c1task] []).db
      = [c1task] :=
  ⟨rfl, rfl, rfl, rfl⟩

def c6task : Task :=
  { id := 5, chat_id := 555, message_text := some "hi", photo_file_id := none,
    document_file_id := none, caption := none,
    publish_at := ⟨2025, 1, 1, 10, 0, true⟩,
    original_publish_at := ⟨2025, 1, 1, 10, 0, true⟩, recurrence := "once",
    pin := false, notify := true, delete_after_days := none, active := true,
    created_at := ⟨2024, 12, 1, 0, 0, false⟩, last_published_at := none,
    max_end_date := some ⟨2025, 12, 1, 0, 0, false⟩ }

/-- Claim C6, evaluated at the failing input: an active row whose stored
`publish_at` carries the `+00:00` offset that `parse_user_datetime` writes,
with a fire time in the past (so the claim requires an immediate fire).
`schedule_all_jobs` instead raises TypeError comparing the aware timestamp
with the naive clock: the task is neither fired nor enqueued. -/
theorem restart_recovery_crashes_on_aware_row :
    lexLe c6task.publish_at ⟨2025, 6, 1, 0, 0, false⟩ = true ∧
    schedule_all_jobs ⟨2025, 6, 1, 0, 0, false⟩ [c6task] =
      ([], some .typeError) :=
  ⟨rfl, rfl⟩

/-- Claim C2 (evaluated on the model): completing the task-creation
conversation inserts the row but leaves the Dispatcher's job queue exactly
as it was — no job is enqueued and no notification happens, so the new task
cannot fire before the next restart. -/
theorem submission_does_not_notify_dispatcher (nowLocal nowSql : DateTime)
    (daysChoice : Nat) (session : SessionData) (st : BotState) :
    ((select_delete_days nowLocal nowSql daysChoice session st).1).schedulerJobs
      = st.schedulerJobs := by
  unfold select_delete_days
  split <;> rfl

theorem digitChar_not_ws (n : Nat) : isWs (Nat.digitChar n) = false := by
  rcases Nat.lt_or_ge n 16 with h | h
  · interval_cases n <;> decide
  · obtain ⟨k, rfl⟩ := Nat.exists_eq_add_of_le' h
    rfl

theorem digitChar_isDigit {n : Nat} (h : n < 10) :
    (Nat.digitChar n).isDigit = true := by
  interval_cases n <;> decide

theorem c2n_digitChar {n : Nat} (h : n < 10) : c2n (Nat.digitChar n) = n := by
  interval_cases n <;> decide

theorem dropWhile_cons_false {p : Char → Bool} {a : Char} {l : List Char}
    (h : p a = false) : (a :: l).dropWhile p = a :: l := by
  simp [List.dropWhile, h]

theorem stripChars_eq_self (c0 x : Char) (mid : List Char)
    (h0 : isWs c0 = false) (hx : isWs x = false) :
    stripChars (c0 :: (mid ++ [x])) = c0 :: (mid ++ [x]) := by
  unfold stripChars
  rw [dropWhile_cons_false h0,
    show c0 :: (mid ++ [x]) = (c0 :: mid) ++ [x] from rfl,
    List.reverse_append, List.reverse_singleton, List.singleton_append,
    dropWhile_cons_false hx]
  simp

theorem read2_fmt2 (n : Nat) (h : n < 100) (rest : List Char) :
    read2 (fmt2 n ++ rest) = some (n, rest) := by
  have h1 : n / 10 % 10 < 10 := Nat.mod_lt _ (by norm_num)
  have h2 : n % 10 < 10 := Nat.mod_lt _ (by norm_num)
  show read2 (Nat.digitChar (n / 10 % 10) :: Nat.digitChar (n % 10) :: rest)
    = some (n, rest)
  simp only [read2, digitChar_isDigit h1, digitChar_isDigit h2,
    Bool.and_self, if_true, c2n_digitChar h1, c2n_digitChar h2,
    Option.some.injEq, Prod.mk.injEq]
  exact ⟨by omega, trivial⟩

theorem read4_fmt4 (n : Nat) (h : n < 10000) (rest : List Char) :
    read4 (fmt4 n ++ rest) = some (n, rest) := by
  have h1 : n / 1000 % 10 < 10 := Nat.mod_lt _ (by norm_num)
  have h2 : n / 100 % 10 < 10 := Nat.mod_lt _ (by norm_num)
  have h3 : n / 10 % 10 < 10 := Nat.mod_lt _ (by norm_num)
  have h4 : n % 10 < 10 := Nat.mod_lt _ (by norm_num)
  show read4 (Nat.digitChar (n / 1000 % 10) :: Nat.digitChar (n / 100 % 10) ::
      Nat.digitChar (n / 10 % 10) :: Nat.digitChar (n % 10) :: rest)
    = some (n, rest)
  simp only [read4, digitChar_isDigit h1, digitChar_isDigit h2,
    digitChar_isDigit h3, digitChar_isDigit h4, Bool.and_self, if_true,
    c2n_digitChar h1, c2n_digitChar h2, c2n_digitChar h3, c2n_digitChar h4,
    Option.some.injEq, Prod.mk.injEq]
  exact ⟨by omega, trivial⟩

theorem expect_cons (c : Char) (rest : List Char) :
    expect c (c :: rest) = some rest := by
  simp [expect]

theorem scanFields_format (day month year hour minute : Nat) (hd : day < 100)
    (hm : month < 100) (hy : year < 10000) (hh : hour < 100)
    (hmin : minute < 100) :
    scanFields (fmt2 day ++ ('.' :: (fmt2 month ++ ('.' :: (fmt4 year ++
      (' ' :: (fmt2 hour ++ (':' :: fmt2 minute)))))))) =
      some (day, month, year, hour, minute) := by
  unfold scanFields
  rw [read2_fmt2 day hd, Option.some_bind, expect_cons, Option.some_bind,
    read2_fmt2 month hm, Option.some_bind, expect_cons, Option.some_bind,
    read4_fmt4 year hy, Option.some_bind, expect_cons, Option.some_bind,
    read2_fmt2 hour hh, Option.some_bind, expect_cons, Option.some_bind,
    ← List.append_nil (fmt2 minute), read2_fmt2 minute hmin, Option.some_bind]
  simp

theorem daysInMonth_le_31 (y m : Nat) : daysInMonth y m ≤ 31 := by
  unfold daysInMonth
  repeat' split
  all_goals omega

/-- Claim C9: for every aware UTC instant whose local rendering fits the
fixed DD.MM.YYYY HH:MM format (4-digit year), formatting it in the
configured reference timezone (config default "UTC") and parsing the result
with `parse_user_datetime` reproduces the original instant to minute
precision (together with its naive local counterpart). -/
theorem parse_format_roundtrip (dt : DateTime) (haw : dt.aware = true)
    (hm1 : 1 ≤ dt.month) (hm2 : dt.month ≤ 12) (hd1 : 1 ≤ dt.day)
    (hd2 : dt.day ≤ daysInMonth dt.year dt.month) (hh : dt.hour ≤ 23)
    (hmin : dt.minute ≤ 59) (hy1 : 1000 ≤ dt.year) (hy2 : dt.year ≤ 9999) :
    parse_user_datetime (format_user_datetime dt) =
      .ok ({ dt with aware := false }, dt) := by
  obtain ⟨y, mo, d, hr, mi, aw⟩ := dt
  dsimp only at haw hm1 hm2 hd1 hd2 hh hmin hy1 hy2
  subst haw
  have hd100 : d < 100 := by
    have := daysInMonth_le_31 y mo
    omega
  have hstrip :
      stripChars ((format_user_datetime ⟨y, mo, d, hr, mi, true⟩).toList) =
      fmt2 d ++ ('.' :: (fmt2 mo ++ ('.' :: (fmt4 y ++
        (' ' :: (fmt2 hr ++ (':' :: fmt2 mi))))))) := by
    rw [show (format_user_datetime ⟨y, mo, d, hr, mi, true⟩).toList =
        Nat.digitChar (d / 10 % 10) ::
          ((Nat.digitChar (d % 10) :: '.' :: (fmt2 mo ++ ('.' :: (fmt4 y ++
            (' ' :: (fmt2 hr ++ (':' :: [Nat.digitChar (mi / 10 % 10)]))))))) ++
          [Nat.digitChar (mi % 10)]) from rfl]
    rw [stripChars_eq_self _ _ _ (digitChar_not_ws _) (digitChar_not_ws _)]
    rfl
  unfold parse_user_datetime
  rw [hstrip, scanFields_format d mo y hr mi hd100 (by omega) (by omega)
    (by omega) (by omega)]
  dsimp only
  rw [if_pos ⟨by omega, hm1, hm2, hd1, hd2, hh, hmin⟩]

/-- Witness for C9 at a concrete instant. -/
theorem parse_format_roundtrip_witness :
    parse_user_datetime (format_user_datetime ⟨2024, 5, 1, 10, 30, true⟩) =
      .ok (⟨2024, 5, 1, 10, 30, false⟩, ⟨2024, 5, 1, 10, 30, true⟩) :=
  parse_format_roundtrip ⟨2024, 5, 1, 10, 30, true⟩ rfl (by decide)
    (by decide) (by decide) (by decide) (by decide) (by decide) (by decide)
    (by decide)

end TelegramReminder
